import Mathlib

/-!
Verification of the picoboot-rs PICOBOOT client library.

This file shallowly embeds the library's wire codec (`src/cmd.rs`) and its
connection / protocol engine (`src/usb.rs`) into Lean.  Machine integers
(`u8`, `u16`, `u32`) are modelled as `Nat` with explicit reduction modulo
`2^8` / `2^16` / `2^32` at the points where the Rust code stores into a
fixed-width field or performs an `as` cast.  USB I/O is modelled by an
explicit oracle (`Oracle`) answering each bulk transfer, and by a trace of
attempted USB operations recorded in the connection state, so that claims of
the form "no USB I/O is performed" become statements about the trace.
Fallible Rust paths return `Except` / `Option`; a Rust `panic!` / `unwrap` /
`expect` failure is modelled as `none` (or an explicit `Bool` flag for the
destructor), never silently dropped.
-/

/-- `PICOBOOT_MAGIC` from `src/lib.rs`. -/
def PICOBOOT_MAGIC : Nat := 0x431FD10B

/-- `PICO_PAGE_SIZE` from `src/lib.rs`. -/
def PICO_PAGE_SIZE : Nat := 0x100

/-- `PICO_SECTOR_SIZE` from `src/lib.rs`. -/
def PICO_SECTOR_SIZE : Nat := 0x1000

/-- `PICO_FLASH_START` from `src/lib.rs`. -/
def PICO_FLASH_START : Nat := 0x10000000

/-- `TargetID` from `src/cmd.rs`. -/
inductive TargetID : Type
  | Rp2040
  | Rp2350
deriving DecidableEq

/-- `PicobootCmdId` from `src/cmd.rs`. -/
inductive PicobootCmdId : Type
  | Unknown
  | ExclusiveAccess
  | Reboot
  | FlashErase
  | Read
  | Write
  | ExitXip
  | EnterCmdXip
  | Exec
  | VectorizeFlash
  | Reboot2
  | GetInfo
  | OtpRead
  | OtpWrite
deriving DecidableEq

/-- The `repr(u8)` discriminant values of `PicobootCmdId` (`x as u8` in Rust). -/
def PicobootCmdId.toVal : PicobootCmdId → Nat
  | .Unknown => 0x0
  | .ExclusiveAccess => 0x1
  | .Reboot => 0x2
  | .FlashErase => 0x3
  | .Read => 0x84
  | .Write => 0x5
  | .ExitXip => 0x6
  | .EnterCmdXip => 0x7
  | .Exec => 0x8
  | .VectorizeFlash => 0x9
  | .Reboot2 => 0xA
  | .GetInfo => 0x8B
  | .OtpRead => 0x8C
  | .OtpWrite => 0xD

/-- `PicobootStatus` from `src/cmd.rs` (status codes 0..17). -/
inductive PicobootStatus : Type
  | Ok
  | UnknownCmd
  | InvalidCmdLength
  | InvalidTransferLength
  | InvalidAddress
  | BadAlignment
  | InterleavedWrite
  | Rebooting
  | UnknownError
  | InvalidState
  | NotPermitted
  | InvalidArg
  | BufferTooSmall
  | PreconditionNotMet
  | ModifiedData
  | InvalidData
  | NotFound
  | UnsupportedModification
deriving DecidableEq

/-- The `repr(u32)` discriminant values of `PicobootStatus` (`x as u32` in Rust). -/
def PicobootStatus.toVal : PicobootStatus → Nat
  | .Ok => 0
  | .UnknownCmd => 1
  | .InvalidCmdLength => 2
  | .InvalidTransferLength => 3
  | .InvalidAddress => 4
  | .BadAlignment => 5
  | .InterleavedWrite => 6
  | .Rebooting => 7
  | .UnknownError => 8
  | .InvalidState => 9
  | .NotPermitted => 10
  | .InvalidArg => 11
  | .BufferTooSmall => 12
  | .PreconditionNotMet => 13
  | .ModifiedData => 14
  | .InvalidData => 15
  | .NotFound => 16
  | .UnsupportedModification => 17

/-- `impl TryFrom<u32> for PicobootStatus` from `src/cmd.rs`: a sequence of
equality guards `x if x == Self::Ok as u32 => ...` ending in `_ => Err(())`.
`none` models `Err(())`. -/
def PicobootStatus.tryFrom (x : Nat) : Option PicobootStatus :=
  if x = 0 then some .Ok
  else if x = 1 then some .UnknownCmd
  else if x = 2 then some .InvalidCmdLength
  else if x = 3 then some .InvalidTransferLength
  else if x = 4 then some .InvalidAddress
  else if x = 5 then some .BadAlignment
  else if x = 6 then some .InterleavedWrite
  else if x = 7 then some .Rebooting
  else if x = 8 then some .UnknownError
  else if x = 9 then some .InvalidState
  else if x = 10 then some .NotPermitted
  else if x = 11 then some .InvalidArg
  else if x = 12 then some .BufferTooSmall
  else if x = 13 then some .PreconditionNotMet
  else if x = 14 then some .ModifiedData
  else if x = 15 then some .InvalidData
  else if x = 16 then some .NotFound
  else if x = 17 then some .UnsupportedModification
  else none

/-- `PicobootError` from `src/cmd.rs`.  The `rusb::Error` / `bincode::Error`
payloads are dropped: no claim inspects them. -/
inductive PicobootError : Type
  | UsbDeviceNotFound
  | UsbEndpointsNotFound
  | UsbEndpointsUnexpected
  | UsbDetachKernelDriverFailure
  | UsbClaimInterfaceFailure
  | UsbSetAltSettingFailure
  | UsbReadBulkFailure
  | UsbReadBulkMismatch
  | UsbWriteBulkFailure
  | UsbWriteBulkMismatch
  | UsbClearInAddrHalt
  | UsbClearOutAddrHalt
  | UsbResetInterfaceFailure
  | UsbGetCommandStatusFailure
  | CmdSerializeFailure
  | CmdDeserializeFailure
  | CmdNotAllowedForTarget
  | EraseInvalidAddr
  | EraseInvalidSize
  | WriteInvalidAddr
deriving DecidableEq

/-- Little-endian bytes of a `u16`. -/
def le16 (n : Nat) : List Nat := [n % 256, n / 256 % 256]

/-- Little-endian bytes of a `u32`. -/
def le32 (n : Nat) : List Nat :=
  [n % 256, n / 256 % 256, n / 65536 % 256, n / 16777216 % 256]

/-- Little-endian bytes of a `u64`. -/
def le64 (n : Nat) : List Nat := le32 (n % 4294967296) ++ le32 (n / 4294967296)

/-- `PicobootRangeCmd::ser` from `src/cmd.rs`: bincode (fixed-int,
little-endian) serialization of `{addr:u32, size:u32, _unused:u64=0}`. -/
def PicobootRangeCmd.ser (addr size : Nat) : List Nat :=
  le32 addr ++ le32 size ++ le64 0

/-- `PicobootRebootCmd::ser` from `src/cmd.rs`:
`{pc:u32, sp:u32, delay:u32, _unused:u32=0}`. -/
def PicobootRebootCmd.ser (pc sp delay : Nat) : List Nat :=
  le32 pc ++ le32 sp ++ le32 delay ++ le32 0

/-- `PicobootReboot2Cmd::ser` from `src/cmd.rs`:
`{flags:u32, delay:u32, p0:u32, p1:u32}`. -/
def PicobootReboot2Cmd.ser (flags delay p0 p1 : Nat) : List Nat :=
  le32 flags ++ le32 delay ++ le32 p0 ++ le32 p1

/-- `PicobootCmd` from `src/cmd.rs` (the 32-byte command frame).
Fields are the Rust `u32`/`u8`/`u16` fields as `Nat`s already reduced to
their width; `args` is the 16-byte `[u8; 16]` payload. -/
structure PicobootCmd : Type where
  magic : Nat
  token : Nat
  cmd_id : Nat
  cmd_size : Nat
  _unused : Nat
  transfer_len : Nat
  args : List Nat
deriving DecidableEq

/-- `PicobootCmd::new` from `src/cmd.rs`. -/
def PicobootCmd.new (cmd_id : PicobootCmdId) (cmd_size : Nat) (transfer_len : Nat)
    (args : List Nat) : PicobootCmd :=
  { magic := PICOBOOT_MAGIC
    token := 0
    cmd_id := cmd_id.toVal
    cmd_size := cmd_size % 256
    _unused := 0
    transfer_len := transfer_len % 4294967296
    args := args }

/-- `PicobootCmd::set_token` from `src/cmd.rs` (the field is a `u32`). -/
def PicobootCmd.set_token (c : PicobootCmd) (token : Nat) : PicobootCmd :=
  { c with token := token % 4294967296 }

/-- `PicobootCmd::get_transfer_len` from `src/cmd.rs`. -/
def PicobootCmd.get_transfer_len (c : PicobootCmd) : Nat := c.transfer_len

/-- `PicobootCmd::exclusive_access` from `src/cmd.rs`. -/
def PicobootCmd.exclusive_access (exclusive : Nat) : PicobootCmd :=
  PicobootCmd.new .ExclusiveAccess 1 0 (exclusive % 256 :: List.replicate 15 0)

/-- `PicobootCmd::reboot` from `src/cmd.rs`. -/
def PicobootCmd.reboot (pc sp delay : Nat) : PicobootCmd :=
  PicobootCmd.new .Reboot 12 0 (PicobootRebootCmd.ser pc sp delay)

/-- `PicobootCmd::reboot2_normal` from `src/cmd.rs` (flags 0 = normal boot). -/
def PicobootCmd.reboot2_normal (delay : Nat) : PicobootCmd :=
  PicobootCmd.new .Reboot2 0x10 0 (PicobootReboot2Cmd.ser 0 delay 0 0)

/-- `PicobootCmd::flash_erase` from `src/cmd.rs`. -/
def PicobootCmd.flash_erase (addr size : Nat) : PicobootCmd :=
  PicobootCmd.new .FlashErase 8 0 (PicobootRangeCmd.ser addr size)

/-- `PicobootCmd::flash_write` from `src/cmd.rs`. -/
def PicobootCmd.flash_write (addr size : Nat) : PicobootCmd :=
  PicobootCmd.new .Write 8 size (PicobootRangeCmd.ser addr size)

/-- `PicobootCmd::flash_read` from `src/cmd.rs`. -/
def PicobootCmd.flash_read (addr size : Nat) : PicobootCmd :=
  PicobootCmd.new .Read 8 size (PicobootRangeCmd.ser addr size)

/-- `PicobootCmd::enter_xip` from `src/cmd.rs`. -/
def PicobootCmd.enter_xip : PicobootCmd :=
  PicobootCmd.new .EnterCmdXip 0 0 (List.replicate 16 0)

/-- `PicobootCmd::exit_xip` from `src/cmd.rs`. -/
def PicobootCmd.exit_xip : PicobootCmd :=
  PicobootCmd.new .ExitXip 0 0 (List.replicate 16 0)

/-- `bincode::serialize` of a `PicobootCmd` (`repr(C, packed)`, bincode's
default fixed-int little-endian encoding): 4 + 4 + 1 + 1 + 2 + 4 + 16 bytes. -/
def serializeCmd (c : PicobootCmd) : List Nat :=
  le32 c.magic ++ le32 c.token ++ [c.cmd_id % 256] ++ [c.cmd_size % 256] ++
    le16 c._unused ++ le32 c.transfer_len ++ c.args

/-- `PicobootStatusCmd` from `src/cmd.rs` (the 16-byte status frame). -/
structure PicobootStatusCmd : Type where
  token : Nat
  status_code : Nat
  cmd_id : Nat
  in_progress : Nat
  _unused : List Nat
deriving DecidableEq

/-- `PicobootStatusCmd::get_token` from `src/cmd.rs`. -/
def PicobootStatusCmd.get_token (c : PicobootStatusCmd) : Nat := c.token

/-- `PicobootStatusCmd::get_status_code` from `src/cmd.rs`:
`self.status_code.try_into().unwrap()`.  The `unwrap` panics when the
conversion fails; the panic is modelled as `none`. -/
def PicobootStatusCmd.get_status_code (c : PicobootStatusCmd) : Option PicobootStatus :=
  PicobootStatus.tryFrom c.status_code

/-- Little-endian `u32` read at offset `i` of a byte list. -/
def readLE32 (bs : List Nat) (i : Nat) : Nat :=
  bs.getD i 0 + 256 * bs.getD (i + 1) 0 + 65536 * bs.getD (i + 2) 0 +
    16777216 * bs.getD (i + 3) 0

/-- `bincode::deserialize::<PicobootStatusCmd>` as used by
`get_command_status` in `src/usb.rs`: reads 16 bytes
`token:u32, status_code:u32, cmd_id:u8, in_progress:u8, _unused:[u8;6]`;
fails (`CmdDeserializeFailure`) if the buffer is shorter than 16 bytes. -/
def deserializeStatus (bs : List Nat) : Option PicobootStatusCmd :=
  if 16 ≤ bs.length then
    some { token := readLE32 bs 0
           status_code := readLE32 bs 4
           cmd_id := bs.getD 8 0
           in_progress := bs.getD 9 0
           _unused := (bs.drop 10).take 6 }
  else none

/-- A USB operation attempted by the client, as recorded in the trace.
Every entry corresponds to one call into the USB transport, whether or not
the transfer succeeded. -/
inductive UsbOp : Type
  | bulkWrite (data : List Nat)
  | bulkRead (bufSize : Nat)
  | controlIn
  | controlOut
  | clearHalt (addr : Nat)
  | detachKernelDriver
  | attachKernelDriver
  | claimInterface
  | releaseInterface
  | setAltSetting
  | setActiveConfiguration
deriving DecidableEq

/-- The device / transport side of each bulk transfer: for the `i`-th USB
operation, how many bytes a `write_bulk` of `data` reports transferred
(`none` = transport error), and which bytes a `read_bulk` into a buffer of
`bufSize` bytes yields (`none` = transport error). -/
structure Oracle : Type where
  writeLen : Nat → List Nat → Option Nat
  readBytes : Nat → Nat → Option (List Nat)

/-- A fully compliant device: every write transfers all bytes, every read
fills the whole buffer with zeros. -/
def okOracle : Oracle :=
  { writeLen := fun _ data => some data.length
    readBytes := fun _ bufSize => some (List.replicate bufSize 0) }

/-- The mutable state of a `PicobootConnection` from `src/usb.rs`, together
with the bookkeeping the claims need: `io_count` numbers USB operations (it
indexes the oracle) and `trace` records every attempted USB operation. -/
structure ConnState : Type where
  cmd_token : Nat
  io_count : Nat
  trace : List UsbOp
  target_id : TargetID
  has_kernel_driver : Bool
deriving DecidableEq

/-- The connection state built at the end of `PicobootConnection::new`
(`src/usb.rs`): `cmd_token: 1`. -/
def initState (target : TargetID) (hasKernel : Bool) : ConnState :=
  { cmd_token := 1
    io_count := 0
    trace := []
    target_id := target
    has_kernel_driver := hasKernel }

/-- `PicobootConnection::bulk_write` from `src/usb.rs`.  The returned state
is the same on every branch (the transfer is attempted first); the second
component is `some e` when the Rust function returns `Err(e)`. -/
def bulkWriteSt (o : Oracle) (s : ConnState) (buf : List Nat) (check : Bool) :
    ConnState × Option PicobootError :=
  ({ s with io_count := s.io_count + 1, trace := s.trace ++ [UsbOp.bulkWrite buf] },
    match o.writeLen s.io_count buf with
    | none => some PicobootError.UsbWriteBulkFailure
    | some len =>
      if check ∧ len ≠ buf.length then some PicobootError.UsbWriteBulkMismatch
      else none)

/-- `PicobootConnection::bulk_read` from `src/usb.rs`.  The device's bytes
are capped at the buffer size (libusb never transfers more than the buffer);
`buf.resize(len, 0)` makes the result exactly the transferred bytes. -/
def bulkReadSt (o : Oracle) (s : ConnState) (buf_size : Nat) (check : Bool) :
    ConnState × Except PicobootError (List Nat) :=
  ({ s with io_count := s.io_count + 1, trace := s.trace ++ [UsbOp.bulkRead buf_size] },
    match o.readBytes s.io_count buf_size with
    | none => Except.error PicobootError.UsbReadBulkFailure
    | some bs =>
      if check ∧ min bs.length buf_size ≠ buf_size then
        Except.error PicobootError.UsbReadBulkMismatch
      else Except.ok (bs.take (min bs.length buf_size)))

/-- The `let _stat = self.get_command_status();` lines of
`PicobootConnection::cmd`: a control-in transfer whose result (success or
failure) is discarded. -/
def statusPoll (s : ConnState) : ConnState :=
  { s with io_count := s.io_count + 1, trace := s.trace ++ [UsbOp.controlIn] }

/-- The `if we're reading or writing a buffer` block of
`PicobootConnection::cmd` from `src/usb.rs`: when `transfer_len` is nonzero,
a checked bulk read (direction bit set) or a checked bulk write of the
caller's payload (direction bit clear), followed by a discarded status poll;
when `transfer_len` is zero, nothing. -/
def dataPhase (o : Oracle) (c : PicobootCmd) (buf : List Nat) (s : ConnState) :
    ConnState × Except PicobootError (List Nat) :=
  if c.get_transfer_len ≠ 0 then
    if Nat.testBit c.cmd_id 7 then
      match (bulkReadSt o s c.get_transfer_len true).2 with
      | Except.error e => ((bulkReadSt o s c.get_transfer_len true).1, Except.error e)
      | Except.ok bs =>
        (statusPoll (bulkReadSt o s c.get_transfer_len true).1, Except.ok bs)
    else
      match (bulkWriteSt o s buf true).2 with
      | some e => ((bulkWriteSt o s buf true).1, Except.error e)
      | none => (statusPoll (bulkWriteSt o s buf true).1, Except.ok [])
  else (s, Except.ok [])

/-- The `do ack` block of `PicobootConnection::cmd` from `src/usb.rs`: an
unchecked single-byte transfer opposite to the data direction; `res` is the
result of the data phase, passed through on success. -/
def ackPhase (o : Oracle) (dIn : Bool) (s : ConnState) (res : List Nat) :
    ConnState × Except PicobootError (List Nat) :=
  if dIn then
    match (bulkWriteSt o s [0] false).2 with
    | some e => ((bulkWriteSt o s [0] false).1, Except.error e)
    | none => ((bulkWriteSt o s [0] false).1, Except.ok res)
  else
    match (bulkReadSt o s 1 false).2 with
    | Except.error e => ((bulkReadSt o s 1 false).1, Except.error e)
    | Except.ok _ => ((bulkReadSt o s 1 false).1, Except.ok res)

/-- The body of `PicobootConnection::cmd` from `src/usb.rs` after the token
has been stamped: write the 32-byte frame (checked), poll status (result
discarded), run the optional data phase, then the unchecked single-byte ack
in the opposite direction. -/
def cmdPhases (o : Oracle) (s : ConnState) (c : PicobootCmd) (buf : List Nat) :
    ConnState × Except PicobootError (List Nat) :=
  match (bulkWriteSt o s (serializeCmd c) true).2 with
  | some e => ((bulkWriteSt o s (serializeCmd c) true).1, Except.error e)
  | none =>
    match (dataPhase o c buf (statusPoll (bulkWriteSt o s (serializeCmd c) true).1)).2 with
    | Except.error e =>
      ((dataPhase o c buf (statusPoll (bulkWriteSt o s (serializeCmd c) true).1)).1,
        Except.error e)
    | Except.ok res =>
      ackPhase o (Nat.testBit c.cmd_id 7)
        (dataPhase o c buf (statusPoll (bulkWriteSt o s (serializeCmd c) true).1)).1 res

/-- `PicobootConnection::cmd` from `src/usb.rs`: stamp the frame with the
connection's current `cmd_token`, increment the (u32) counter, then run the
transaction phases.  The state is returned on every path because the Rust
method mutates `self` in place before any fallible step. -/
def cmdRun (o : Oracle) (s : ConnState) (c : PicobootCmd) (buf : List Nat) :
    ConnState × Except PicobootError (List Nat) :=
  cmdPhases o { s with cmd_token := (s.cmd_token + 1) % 4294967296 }
    (c.set_token s.cmd_token) buf

/-- `PicobootConnection::flash_erase` from `src/usb.rs`.  The source contains
only a `TODO: error on invalid address and/or size` comment and sends the
command unconditionally. -/
def usbFlashErase (o : Oracle) (s : ConnState) (addr size : Nat) :
    ConnState × Except PicobootError (List Nat) :=
  cmdRun o s (PicobootCmd.flash_erase addr size) []

/-- `PicobootConnection::flash_write` from `src/usb.rs`: the frame's size is
`buf.len() as u32` (a truncating cast, modelled as `% 2^32`); the source
contains only a `TODO: error on invalid address or bad buffer size` comment
and sends the command unconditionally. -/
def usbFlashWrite (o : Oracle) (s : ConnState) (addr : Nat) (buf : List Nat) :
    ConnState × Except PicobootError (List Nat) :=
  cmdRun o s (PicobootCmd.flash_write addr (buf.length % 4294967296)) buf

/-- `PicobootConnection::flash_read` from `src/usb.rs`. -/
def usbFlashRead (o : Oracle) (s : ConnState) (addr size : Nat) :
    ConnState × Except PicobootError (List Nat) :=
  cmdRun o s (PicobootCmd.flash_read addr size) []

/-- `PicobootConnection::reboot2_normal` from `src/usb.rs`: on an RP2040
target it returns `CmdNotAllowedForTarget` before calling `cmd`. -/
def usbReboot2Normal (o : Oracle) (s : ConnState) (delay : Nat) :
    ConnState × Except PicobootError (List Nat) :=
  match s.target_id with
  | TargetID.Rp2040 => (s, Except.error PicobootError.CmdNotAllowedForTarget)
  | TargetID.Rp2350 => cmdRun o s (PicobootCmd.reboot2_normal delay) []

/-- The post-endpoint-binding part of `PicobootConnection::new` from
`src/usb.rs`: kernel-driver handling, the ignored `set_active_configuration`,
`claim_interface`, `set_alternate_setting`, and construction of the state.
`kernelActive` is `kernel_driver_active(iface) == Ok(true)`; the `Bool`
arguments say whether each fallible transport call succeeds.  The returned
list is the trace of attempted USB operations. -/
def newSetup (kernelActive detachOk claimOk altOk : Bool) (target : TargetID) :
    List UsbOp × Except PicobootError ConnState :=
  if kernelActive ∧ ¬detachOk then
    ([UsbOp.detachKernelDriver], Except.error PicobootError.UsbDetachKernelDriverFailure)
  else
    let ops0 : List UsbOp := if kernelActive then [UsbOp.detachKernelDriver] else []
    let ops1 := ops0 ++ [UsbOp.setActiveConfiguration]
    let ops2 := ops1 ++ [UsbOp.claimInterface]
    if ¬claimOk then (ops2, Except.error PicobootError.UsbClaimInterfaceFailure)
    else
      let ops3 := ops2 ++ [UsbOp.setAltSetting]
      if ¬altOk then (ops3, Except.error PicobootError.UsbSetAltSettingFailure)
      else (ops3, Except.ok (initState target kernelActive))

/-- `impl Drop for PicobootConnection` from `src/usb.rs`: release the
interface (`expect`, so a failure panics), then, if a kernel driver was
detached at construction, reattach it (`expect` again).  The returned list
is the trace of attempted USB operations; the `Bool` is `true` iff the
destructor panicked. -/
def dropRun (s : ConnState) (releaseOk attachOk : Bool) : List UsbOp × Bool :=
  if ¬releaseOk then ([UsbOp.releaseInterface], true)
  else if s.has_kernel_driver then
    ([UsbOp.releaseInterface, UsbOp.attachKernelDriver], !attachOk)
  else ([UsbOp.releaseInterface], false)

/-- A fresh RP2350 connection state (as built by a successful `new`). -/
def s0 : ConnState := initState TargetID.Rp2350 false

/-- The tokens stamped onto the frames of a sequence of command attempts:
attempt `k` is stamped with the connection's `cmd_token` at that point
(`cmd` overwrites the frame's token with it before any I/O). -/
def emittedTokens (o : Oracle) : ConnState → List (PicobootCmd × List Nat) → List Nat
  | _, [] => []
  | s, cb :: cs => s.cmd_token :: emittedTokens o (cmdRun o s cb.1 cb.2).1 cs

/-- Claim C7: every command frame built via the builder constructors
(`exclusive_access`, `reboot`, `reboot2_normal`, `flash_erase`,
`flash_write`, `flash_read`, `enter_xip`, `exit_xip`) serializes to exactly
32 bytes whose first four bytes are the little-endian encoding of the magic
value 0x431FD10B. -/
theorem builder_frames_32_bytes_magic (ex pc sp delay addr size : Nat) :
    ((serializeCmd (PicobootCmd.exclusive_access ex)).length = 32 ∧
      (serializeCmd (PicobootCmd.exclusive_access ex)).take 4 = [0x0B, 0xD1, 0x1F, 0x43]) ∧
    ((serializeCmd (PicobootCmd.reboot pc sp delay)).length = 32 ∧
      (serializeCmd (PicobootCmd.reboot pc sp delay)).take 4 = [0x0B, 0xD1, 0x1F, 0x43]) ∧
    ((serializeCmd (PicobootCmd.reboot2_normal delay)).length = 32 ∧
      (serializeCmd (PicobootCmd.reboot2_normal delay)).take 4 = [0x0B, 0xD1, 0x1F, 0x43]) ∧
    ((serializeCmd (PicobootCmd.flash_erase addr size)).length = 32 ∧
      (serializeCmd (PicobootCmd.flash_erase addr size)).take 4 = [0x0B, 0xD1, 0x1F, 0x43]) ∧
    ((serializeCmd (PicobootCmd.flash_write addr size)).length = 32 ∧
      (serializeCmd (PicobootCmd.flash_write addr size)).take 4 = [0x0B, 0xD1, 0x1F, 0x43]) ∧
    ((serializeCmd (PicobootCmd.flash_read addr size)).length = 32 ∧
      (serializeCmd (PicobootCmd.flash_read addr size)).take 4 = [0x0B, 0xD1, 0x1F, 0x43]) ∧
    ((serializeCmd PicobootCmd.enter_xip).length = 32 ∧
      (serializeCmd PicobootCmd.enter_xip).take 4 = [0x0B, 0xD1, 0x1F, 0x43]) ∧
    ((serializeCmd PicobootCmd.exit_xip).length = 32 ∧
      (serializeCmd PicobootCmd.exit_xip).take 4 = [0x0B, 0xD1, 0x1F, 0x43]) :=
  by refine ⟨⟨?_, ?_⟩, ⟨?_, ?_⟩, ⟨?_, ?_⟩, ⟨?_, ?_⟩, ⟨?_, ?_⟩, ⟨?_, ?_⟩,
       ⟨?_, ?_⟩, ⟨?_, ?_⟩⟩ <;>
     norm_num [serializeCmd, PicobootCmd.exclusive_access, PicobootCmd.reboot,
       PicobootCmd.reboot2_normal, PicobootCmd.flash_erase, PicobootCmd.flash_write,
       PicobootCmd.flash_read, PicobootCmd.enter_xip, PicobootCmd.exit_xip,
       PicobootCmd.new, PicobootCmdId.toVal, PicobootRangeCmd.ser,
       PicobootRebootCmd.ser, PicobootReboot2Cmd.ser, le16, le32, le64,
       PICOBOOT_MAGIC]

/-- Claim C9: on a connection whose detected target is RP2040,
`reboot2_normal` returns `CmdNotAllowedForTarget` and leaves the connection
state (token counter and USB trace) entirely unchanged: no USB I/O occurs. -/
theorem reboot2_rp2040_rejected (o : Oracle) (s : ConnState) (delay : Nat)
    (h : s.target_id = TargetID.Rp2040) :
    usbReboot2Normal o s delay = (s, Except.error PicobootError.CmdNotAllowedForTarget) := by
  unfold usbReboot2Normal
  rw [h]

/-- Witness for C9 at a concrete RP2040 connection. -/
theorem reboot2_rp2040_rejected_witness :
    usbReboot2Normal okOracle (initState TargetID.Rp2040 false) 500 =
      (initState TargetID.Rp2040 false,
        Except.error PicobootError.CmdNotAllowedForTarget) :=
  reboot2_rp2040_rejected okOracle (initState TargetID.Rp2040 false) 500 rfl

/-- Claim C1 (code evaluation at the failing inputs): `flash_erase` performs
no client-side validation.  With `addr = FLASH_START + 1` (not a multiple of
4096) the command is sent anyway and the call succeeds — three USB
operations are performed and no `EraseInvalidAddr` is returned; likewise a
`size` that is not a multiple of 4096 is not rejected with
`EraseInvalidSize`. -/
theorem flash_erase_unaligned_sends :
    (usbFlashErase okOracle s0 (PICO_FLASH_START + 1) 4096).2 = Except.ok [] ∧
    (usbFlashErase okOracle s0 (PICO_FLASH_START + 1) 4096).1.trace =
      [UsbOp.bulkWrite
        (serializeCmd ((PicobootCmd.flash_erase (PICO_FLASH_START + 1) 4096).set_token 1)),
        UsbOp.controlIn, UsbOp.bulkRead 1] ∧
    (usbFlashErase okOracle s0 PICO_FLASH_START 4097).2 = Except.ok [] := by
  refine ⟨rfl, rfl, rfl⟩

/-- Claim C2 (code evaluation at the failing input): `flash_write` performs
no client-side validation.  With `addr = FLASH_START + 128` (not a multiple
of the page size 256) the command frame and the payload are both sent over
the bus and the call succeeds instead of returning `WriteInvalidAddr`. -/
theorem flash_write_unaligned_sends :
    (usbFlashWrite okOracle s0 (PICO_FLASH_START + 128) [1, 2, 3, 4]).2 = Except.ok [] ∧
    (usbFlashWrite okOracle s0 (PICO_FLASH_START + 128) [1, 2, 3, 4]).1.trace =
      [UsbOp.bulkWrite
        (serializeCmd ((PicobootCmd.flash_write (PICO_FLASH_START + 128) 4).set_token 1)),
        UsbOp.controlIn, UsbOp.bulkWrite [1, 2, 3, 4], UsbOp.controlIn, UsbOp.bulkRead 1] := by
  refine ⟨rfl, rfl⟩

/-- `TryFrom<u32> for PicobootStatus` yields `Err` exactly outside 0..17. -/
lemma tryFrom_eq_none_iff (x : Nat) : PicobootStatus.tryFrom x = none ↔ 17 < x := by
  constructor
  · intro h
    by_contra hx
    push_neg at hx
    interval_cases x <;> exact absurd h (by decide)
  · intro h
    unfold PicobootStatus.tryFrom
    repeat rw [if_neg (by omega)]

/-- The successful conversions of `TryFrom<u32> for PicobootStatus` report
the numeric code verbatim: the variant's discriminant equals the input. -/
lemma tryFrom_some_toVal (x : Nat) (st : PicobootStatus)
    (h : PicobootStatus.tryFrom x = some st) : st.toVal = x := by
  have hx : ¬17 < x := by
    intro hgt
    rw [(tryFrom_eq_none_iff x).2 hgt] at h
    exact Option.noConfusion h
  push_neg at hx
  interval_cases x <;> cases st <;>
    simp_all [PicobootStatus.tryFrom, PicobootStatus.toVal]

/-- Claim C3 counterexample: a 16-byte status frame whose `status_code` is 18
(outside 0..17) deserializes successfully, but reading the status via
`get_status_code` does NOT report the value through any `UnknownStatus`
variant — no such variant exists — and instead the `unwrap` inside
`get_status_code` fails, i.e. the library panics (modelled as `none`). -/
theorem status_unknown_code_panics :
    deserializeStatus [0, 0, 0, 0, 18, 0, 0, 0, 3, 0, 0, 0, 0, 0, 0, 0] =
      some { token := 0, status_code := 18, cmd_id := 3, in_progress := 0,
             _unused := [0, 0, 0, 0, 0, 0] } ∧
    PicobootStatusCmd.get_status_code
      { token := 0, status_code := 18, cmd_id := 3, in_progress := 0,
        _unused := [0, 0, 0, 0, 0, 0] } = none := by
  exact ⟨by decide, by decide⟩

/-- Claim C3 (amended): for every decoded status frame, `get_status_code`
fails — the `unwrap` of the `TryFrom<u32>` conversion panics, modelled as
`none` — exactly when `status_code` lies outside 0..17; there is no
`UnknownStatus` variant, and an in-range code is reported as the variant
whose discriminant is verbatim the `status_code` value. -/
theorem get_status_code_amended (c : PicobootStatusCmd) :
    (c.get_status_code = none ↔ 17 < c.status_code) ∧
    (∀ st, c.get_status_code = some st → st.toVal = c.status_code) := by
  constructor
  · exact tryFrom_eq_none_iff c.status_code
  · intro st h
    exact tryFrom_some_toVal c.status_code st h

/-- Witness for C3's amended theorem: a concrete frame with the in-range
status code 5 is reported as `BadAlignment` (discriminant 5). -/
theorem get_status_code_amended_witness :
    PicobootStatus.toVal PicobootStatus.BadAlignment =
      PicobootStatusCmd.status_code
        { token := 7, status_code := 5, cmd_id := 3, in_progress := 0,
          _unused := [0, 0, 0, 0, 0, 0] } :=
  (get_status_code_amended
      { token := 7, status_code := 5, cmd_id := 3, in_progress := 0,
        _unused := [0, 0, 0, 0, 0, 0] }).2
    PicobootStatus.BadAlignment (by decide)

/-- Claim C4 counterexample: if releasing the interface fails, the
destructor panics (the `expect` raises), contradicting the claim that the
destructor never raises and tolerates a release failure. -/
theorem drop_release_failure_panics :
    (dropRun (initState TargetID.Rp2040 true) false true).2 = true := by
  decide

/-- Claim C4 (amended): the destructor always attempts to release the
claimed interface; it attempts to reattach the kernel driver exactly when a
kernel driver was detached at construction and the release succeeded; and it
panics — rather than tolerating the failure — exactly when the release
fails, or a reattach is attempted and fails. -/
theorem drop_behavior (s : ConnState) (releaseOk attachOk : Bool) :
    UsbOp.releaseInterface ∈ (dropRun s releaseOk attachOk).1 ∧
    (UsbOp.attachKernelDriver ∈ (dropRun s releaseOk attachOk).1 ↔
      s.has_kernel_driver = true ∧ releaseOk = true) ∧
    (dropRun s releaseOk attachOk).2 =
      (!releaseOk || (s.has_kernel_driver && !attachOk)) := by
  rcases s with ⟨tok, io, tr, tgt, hk⟩
  cases hk <;> cases releaseOk <;> cases attachOk <;>
    simp [dropRun]

/-- Claim C5 counterexample: when `set_alternate_setting` fails right after
the interface has been claimed, the constructor propagates
`UsbSetAltSettingFailure` but never calls `release_interface`: the claim
that the interface is released before the error propagates is false. -/
theorem new_setalt_fail_leaks_claim :
    (newSetup false true true false TargetID.Rp2350).2 =
      Except.error PicobootError.UsbSetAltSettingFailure ∧
    UsbOp.claimInterface ∈ (newSetup false true true false TargetID.Rp2350).1 ∧
    UsbOp.releaseInterface ∉ (newSetup false true true false TargetID.Rp2350).1 := by
  exact ⟨rfl, by decide, by decide⟩

/-- Claim C5 (amended): whenever construction reaches `set_alternate_setting`
(the interface was successfully claimed) and that call fails, the error
`UsbSetAltSettingFailure` propagates and the claimed interface is NOT
released on that path. -/
theorem new_setalt_fail_no_release (kernelActive : Bool) (target : TargetID) :
    (newSetup kernelActive true true false target).2 =
      Except.error PicobootError.UsbSetAltSettingFailure ∧
    UsbOp.claimInterface ∈ (newSetup kernelActive true true false target).1 ∧
    UsbOp.releaseInterface ∉ (newSetup kernelActive true true false target).1 := by
  cases kernelActive <;> cases target <;> exact ⟨rfl, by decide, by decide⟩

/-- `bulk_write` never changes the token counter. -/
lemma bulkWriteSt_cmd_token (o : Oracle) (s : ConnState) (d : List Nat) (ck : Bool) :
    (bulkWriteSt o s d ck).1.cmd_token = s.cmd_token := rfl

/-- `bulk_read` never changes the token counter. -/
lemma bulkReadSt_cmd_token (o : Oracle) (s : ConnState) (n : Nat) (ck : Bool) :
    (bulkReadSt o s n ck).1.cmd_token = s.cmd_token := rfl

/-- The data phase never changes the token counter. -/
lemma dataPhase_cmd_token (o : Oracle) (c : PicobootCmd) (buf : List Nat) (s : ConnState) :
    (dataPhase o c buf s).1.cmd_token = s.cmd_token := by
  unfold dataPhase
  split
  · split
    · split <;> rfl
    · split <;> rfl
  · rfl

/-- The ack phase never changes the token counter. -/
lemma ackPhase_cmd_token (o : Oracle) (dIn : Bool) (s : ConnState) (res : List Nat) :
    (ackPhase o dIn s res).1.cmd_token = s.cmd_token := by
  unfold ackPhase
  split
  · split <;> rfl
  · split <;> rfl

/-- The whole post-stamp transaction never changes the token counter. -/
lemma cmdPhases_cmd_token (o : Oracle) (s : ConnState) (c : PicobootCmd) (buf : List Nat) :
    (cmdPhases o s c buf).1.cmd_token = s.cmd_token := by
  unfold cmdPhases
  split
  · rfl
  · split
    · rw [dataPhase_cmd_token]
      rfl
    · rw [ackPhase_cmd_token, dataPhase_cmd_token]
      rfl

/-- `cmd` increments the `u32` token counter by one, modulo `2^32`, on every
attempt, successful or not. -/
lemma cmdRun_cmd_token (o : Oracle) (s : ConnState) (c : PicobootCmd) (buf : List Nat) :
    (cmdRun o s c buf).1.cmd_token = (s.cmd_token + 1) % 4294967296 := by
  unfold cmdRun
  rw [cmdPhases_cmd_token]

/-- The data phase only appends to the trace. -/
lemma dataPhase_trace (o : Oracle) (c : PicobootCmd) (buf : List Nat) (s : ConnState) :
    ∃ t, (dataPhase o c buf s).1.trace = s.trace ++ t := by
  unfold dataPhase
  split
  · split
    · split
      · exact ⟨[UsbOp.bulkRead c.get_transfer_len], rfl⟩
      · exact ⟨[UsbOp.bulkRead c.get_transfer_len, UsbOp.controlIn],
          by simp [bulkReadSt, statusPoll]⟩
    · split
      · exact ⟨[UsbOp.bulkWrite buf], rfl⟩
      · exact ⟨[UsbOp.bulkWrite buf, UsbOp.controlIn],
          by simp [bulkWriteSt, statusPoll]⟩
  · exact ⟨[], by simp⟩

/-- The ack phase only appends to the trace. -/
lemma ackPhase_trace (o : Oracle) (dIn : Bool) (s : ConnState) (res : List Nat) :
    ∃ t, (ackPhase o dIn s res).1.trace = s.trace ++ t := by
  unfold ackPhase
  split
  · split
    · exact ⟨[UsbOp.bulkWrite [0]], rfl⟩
    · exact ⟨[UsbOp.bulkWrite [0]], rfl⟩
  · split
    · exact ⟨[UsbOp.bulkRead 1], rfl⟩
    · exact ⟨[UsbOp.bulkRead 1], rfl⟩

/-- Every transaction's first USB operation is the bulk write of the
serialized 32-byte frame; everything later only appends to the trace. -/
lemma cmdPhases_trace (o : Oracle) (s : ConnState) (c : PicobootCmd) (buf : List Nat) :
    ∃ t, (cmdPhases o s c buf).1.trace =
      s.trace ++ UsbOp.bulkWrite (serializeCmd c) :: t := by
  unfold cmdPhases
  split
  · exact ⟨[], by simp [bulkWriteSt]⟩
  · split
    · obtain ⟨t2, ht2⟩ := dataPhase_trace o c buf
        (statusPoll (bulkWriteSt o s (serializeCmd c) true).1)
      exact ⟨UsbOp.controlIn :: t2, by rw [ht2]; simp [bulkWriteSt, statusPoll]⟩
    · rename_i res heq
      obtain ⟨t2, ht2⟩ := dataPhase_trace o c buf
        (statusPoll (bulkWriteSt o s (serializeCmd c) true).1)
      obtain ⟨t3, ht3⟩ := ackPhase_trace o (Nat.testBit c.cmd_id 7)
        (dataPhase o c buf (statusPoll (bulkWriteSt o s (serializeCmd c) true).1)).1 res
      exact ⟨UsbOp.controlIn :: (t2 ++ t3),
        by rw [ht3, ht2]; simp [bulkWriteSt, statusPoll]⟩

/-- Closed form of the stamped token sequence: the `k`-th attempt is stamped
with `(initial token + k) mod 2^32`. -/
lemma emittedTokens_getD (o : Oracle) (cs : List (PicobootCmd × List Nat)) :
    ∀ (s : ConnState) (k : Nat), s.cmd_token < 4294967296 → k < cs.length →
      (emittedTokens o s cs).getD k 0 = (s.cmd_token + k) % 4294967296 := by
  induction cs with
  | nil =>
    intro s k _ hk
    simp at hk
  | cons cb cs ih =>
    intro s k hs hk
    cases k with
    | zero =>
      simp [emittedTokens, Nat.mod_eq_of_lt hs]
    | succ k =>
      have h1 : (cmdRun o s cb.1 cb.2).1.cmd_token = (s.cmd_token + 1) % 4294967296 :=
        cmdRun_cmd_token o s cb.1 cb.2
      have h2 := ih (cmdRun o s cb.1 cb.2).1 k
        (by rw [h1]; exact Nat.mod_lt _ (by norm_num)) (by simpa using hk)
      simp only [emittedTokens, List.getD_cons_succ]
      rw [h2, h1, Nat.mod_add_mod]
      omega

/-- A small concrete command sequence used as the witness input. -/
def demoCmds : List (PicobootCmd × List Nat) :=
  [(PicobootCmd.exit_xip, []), (PicobootCmd.enter_xip, [])]

/-- Claim C6 (amended): `cmd_token` starts at 1; every command attempt stamps
the frame with the connection's current `cmd_token` (the first USB operation
of the attempt is the bulk write of the frame with that token) and then
increments the counter — but the counter is a `u32`, so the increment is
modulo `2^32`: the emitted values are `1, 2, 3, ...` only for the first
`2^32 - 1` attempts; afterwards the counter wraps and values repeat. -/
theorem cmd_token_sequence (o : Oracle) (s : ConnState) (c : PicobootCmd)
    (buf : List Nat) (cs : List (PicobootCmd × List Nat)) (k : Nat) :
    ((cmdRun o s c buf).1.cmd_token = (s.cmd_token + 1) % 4294967296 ∧
      ∃ t, (cmdRun o s c buf).1.trace =
        s.trace ++ UsbOp.bulkWrite (serializeCmd (c.set_token s.cmd_token)) :: t) ∧
    (s.cmd_token = 1 → k < cs.length → k < 4294967295 →
      (emittedTokens o s cs).getD k 0 = k + 1) := by
  constructor
  · constructor
    · exact cmdRun_cmd_token o s c buf
    · exact cmdPhases_trace o
        { s with cmd_token := (s.cmd_token + 1) % 4294967296 }
        (c.set_token s.cmd_token) buf
  · intro h1 hk hk2
    rw [emittedTokens_getD o cs s k (by omega) hk, h1]
    omega

/-- Witness for C6's amended theorem: on a fresh connection the second
attempt is stamped with token 2. -/
theorem cmd_token_sequence_witness :
    (emittedTokens okOracle s0 demoCmds).getD 1 0 = 1 + 1 :=
  (cmd_token_sequence okOracle s0 PicobootCmd.exit_xip [] demoCmds 1).2 rfl
    (by decide) (by decide)

/-- Claim C6 counterexample: the token counter is a `u32` and wraps.  Over
`2^32 + 1` command attempts on a fresh connection, attempt 1 is stamped with
token 1, attempt `2^32` with token 0 (smaller than every earlier token, so
the sequence `1, 2, 3, ...` is not strictly increasing), and attempt
`2^32 + 1` reuses token 1. -/
theorem cmd_token_wrap_counterexample :
    (emittedTokens okOracle s0
      (List.replicate 4294967297 (PicobootCmd.exit_xip, ([] : List Nat)))).getD 0 0 = 1 ∧
    (emittedTokens okOracle s0
      (List.replicate 4294967297 (PicobootCmd.exit_xip, ([] : List Nat)))).getD
        4294967295 0 = 0 ∧
    (emittedTokens okOracle s0
      (List.replicate 4294967297 (PicobootCmd.exit_xip, ([] : List Nat)))).getD
        4294967296 0 = 1 := by
  refine ⟨?_, ?_, ?_⟩ <;>
    rw [emittedTokens_getD okOracle _ s0 _ (by decide)
      (by rw [List.length_replicate]; omega)] <;>
    simp [s0, initState]

/-- Result of `bulk_read` when the transport delivers `bs0`. -/
lemma bulkReadSt_snd (o : Oracle) (s : ConnState) (n : Nat) (ck : Bool) (bs0 : List Nat)
    (hr : o.readBytes s.io_count n = some bs0) :
    (bulkReadSt o s n ck).2 =
      if ck ∧ min bs0.length n ≠ n then Except.error PicobootError.UsbReadBulkMismatch
      else Except.ok (bs0.take (min bs0.length n)) := by
  unfold bulkReadSt
  rw [hr]

/-- A checked `bulk_read` that succeeds returns exactly the requested number
of bytes. -/
lemma bulkReadSt_true_ok_len (o : Oracle) (s : ConnState) (n : Nat) (bs : List Nat)
    (h : (bulkReadSt o s n true).2 = Except.ok bs) : bs.length = n := by
  rcases hr : o.readBytes s.io_count n with _ | bs0
  · unfold bulkReadSt at h
    rw [hr] at h
    simp at h
  · rw [bulkReadSt_snd o s n true bs0 hr] at h
    split at h
    · simp at h
    · rename_i hc
      simp only [Except.ok.injEq] at h
      subst h
      simp only [ne_eq, Decidable.not_not, true_and] at hc
      simp [List.length_take]
      omega

/-- A data phase in the device-to-host direction that succeeds returns
exactly `transfer_len` bytes. -/
lemma dataPhase_ok_len (o : Oracle) (c : PicobootCmd) (buf : List Nat) (s : ConnState)
    (bs : List Nat) (hdir : Nat.testBit c.cmd_id 7 = true)
    (h : (dataPhase o c buf s).2 = Except.ok bs) : bs.length = c.get_transfer_len := by
  unfold dataPhase at h
  by_cases hl : c.get_transfer_len ≠ 0
  · rw [if_pos hl, if_pos hdir] at h
    rcases hr : (bulkReadSt o s c.get_transfer_len true).2 with e | bs0 <;> rw [hr] at h
    · simp at h
    · simp only [Except.ok.injEq] at h
      subst h
      exact bulkReadSt_true_ok_len o s c.get_transfer_len bs0 hr
  · rw [if_neg hl] at h
    simp only [Except.ok.injEq] at h
    subst h
    simp only [List.length_nil]
    omega

/-- The ack phase passes the data-phase result through unchanged. -/
lemma ackPhase_ok_res (o : Oracle) (dIn : Bool) (s : ConnState) (res bs : List Nat)
    (h : (ackPhase o dIn s res).2 = Except.ok bs) : bs = res := by
  unfold ackPhase at h
  cases dIn <;> simp only [Bool.false_eq_true, if_false, if_true, reduceIte] at h
  · rcases hr : (bulkReadSt o s 1 false).2 with e | bs0 <;> rw [hr] at h <;>
      simp_all
  · rcases hw : (bulkWriteSt o s [0] false).2 with _ | e <;> rw [hw] at h <;>
      simp_all

/-- A whole transaction in the device-to-host direction that succeeds
returns exactly `transfer_len` bytes. -/
lemma cmdPhases_ok_len (o : Oracle) (s : ConnState) (c : PicobootCmd) (buf : List Nat)
    (bs : List Nat) (hdir : Nat.testBit c.cmd_id 7 = true)
    (h : (cmdPhases o s c buf).2 = Except.ok bs) : bs.length = c.get_transfer_len := by
  unfold cmdPhases at h
  rcases hw : (bulkWriteSt o s (serializeCmd c) true).2 with _ | e <;> rw [hw] at h
  · rcases hd : (dataPhase o c buf
        (statusPoll (bulkWriteSt o s (serializeCmd c) true).1)).2 with e | res <;>
      rw [hd] at h
    · simp at h
    · have hres := ackPhase_ok_res o (Nat.testBit c.cmd_id 7)
        (dataPhase o c buf (statusPoll (bulkWriteSt o s (serializeCmd c) true).1)).1 res bs h
      subst hres
      exact dataPhase_ok_len o c buf
        (statusPoll (bulkWriteSt o s (serializeCmd c) true).1) bs hdir hd
  · simp at h

/-- A `bulk_write` whose transfer reports all bytes written succeeds. -/
lemma bulkWriteSt_ok (o : Oracle) (s : ConnState) (d : List Nat) (ck : Bool)
    (hw : o.writeLen s.io_count d = some d.length) :
    (bulkWriteSt o s d ck).2 = none := by
  unfold bulkWriteSt
  rw [hw]
  simp

/-- A checked `bulk_read` whose transfer delivers fewer bytes than requested
fails with the length-mismatch error. -/
lemma bulkReadSt_short (o : Oracle) (s : ConnState) (n : Nat) (bs0 : List Nat)
    (hr : o.readBytes s.io_count n = some bs0) (hlen : bs0.length < n) :
    (bulkReadSt o s n true).2 = Except.error PicobootError.UsbReadBulkMismatch := by
  have hc : (true = true) ∧ min bs0.length n ≠ n := ⟨rfl, by omega⟩
  rw [bulkReadSt_snd o s n true bs0 hr, if_pos hc]

/-- A device-to-host transaction whose data-phase transfer comes up short
fails with `UsbReadBulkMismatch`: the frame write is USB operation
`io_count`, the status poll `io_count + 1`, and the data read
`io_count + 2`. -/
lemma cmdPhases_read_mismatch (o : Oracle) (s : ConnState) (c : PicobootCmd)
    (bs0 : List Nat)
    (hw : o.writeLen s.io_count (serializeCmd c) = some (serializeCmd c).length)
    (hdir : Nat.testBit c.cmd_id 7 = true)
    (hr : o.readBytes (s.io_count + 2) c.get_transfer_len = some bs0)
    (hlen : bs0.length < c.get_transfer_len) :
    (cmdPhases o s c []).2 = Except.error PicobootError.UsbReadBulkMismatch := by
  unfold cmdPhases
  rw [bulkWriteSt_ok o s (serializeCmd c) true hw]
  have hdata : (dataPhase o c []
      (statusPoll (bulkWriteSt o s (serializeCmd c) true).1)).2 =
      Except.error PicobootError.UsbReadBulkMismatch := by
    unfold dataPhase
    rw [if_pos (show c.get_transfer_len ≠ 0 by omega), if_pos hdir]
    have hs2 : (statusPoll (bulkWriteSt o s (serializeCmd c) true).1).io_count =
        s.io_count + 2 := rfl
    rw [bulkReadSt_short o _ c.get_transfer_len bs0 (by rw [hs2]; exact hr) hlen]
  rw [hdata]

/-- Claim C8: a successful `flash_read(addr, size)` returns a byte vector of
length exactly `size`; and if the device transfers fewer bytes in the data
phase, the call fails with `UsbReadBulkMismatch` instead of returning a
short buffer. -/
theorem flash_read_exact_length (o : Oracle) (s : ConnState) (addr size : Nat)
    (hsize : size < 4294967296) :
    (∀ bs, (usbFlashRead o s addr size).2 = Except.ok bs → bs.length = size) ∧
    (∀ bs0, o.writeLen s.io_count
        (serializeCmd ((PicobootCmd.flash_read addr size).set_token s.cmd_token)) =
          some 32 →
      o.readBytes (s.io_count + 2) size = some bs0 → bs0.length < size →
      (usbFlashRead o s addr size).2 =
        Except.error PicobootError.UsbReadBulkMismatch) := by
  have htl : ((PicobootCmd.flash_read addr size).set_token s.cmd_token).get_transfer_len
      = size := by
    show size % 4294967296 = size
    omega
  have hdir : Nat.testBit
      ((PicobootCmd.flash_read addr size).set_token s.cmd_token).cmd_id 7 = true :=
    (by decide : Nat.testBit 132 7 = true)
  constructor
  · intro bs h
    have hlen := cmdPhases_ok_len o
      { s with cmd_token := (s.cmd_token + 1) % 4294967296 }
      ((PicobootCmd.flash_read addr size).set_token s.cmd_token) [] bs hdir h
    rw [htl] at hlen
    exact hlen
  · intro bs0 hw hr hlen
    have h := cmdPhases_read_mismatch o
      { s with cmd_token := (s.cmd_token + 1) % 4294967296 }
      ((PicobootCmd.flash_read addr size).set_token s.cmd_token) bs0 hw hdir
      (by rw [htl]; exact hr) (by rw [htl]; exact hlen)
    exact h

/-- A device that accepts every write but always returns an empty read. -/
def badOracle : Oracle :=
  { writeLen := fun _ data => some data.length
    readBytes := fun _ _ => some [] }

/-- Witness for C8: against a device that transfers 0 of the 256 requested
bytes, `flash_read` fails with the bulk-read length mismatch. -/
theorem flash_read_exact_length_witness :
    (usbFlashRead badOracle s0 PICO_FLASH_START 256).2 =
      Except.error PicobootError.UsbReadBulkMismatch :=
  (flash_read_exact_length badOracle s0 PICO_FLASH_START 256 (by norm_num)).2 []
    rfl rfl (by norm_num)

/-- Against the fully compliant device every `bulk_write` succeeds. -/
lemma bulkWriteSt_okOracle (s : ConnState) (d : List Nat) (ck : Bool) :
    (bulkWriteSt okOracle s d ck).2 = none := by
  unfold bulkWriteSt okOracle
  simp

/-- Against the fully compliant device every `bulk_read` returns a zero
buffer of exactly the requested size. -/
lemma bulkReadSt_okOracle (s : ConnState) (n : Nat) (ck : Bool) :
    (bulkReadSt okOracle s n ck).2 = Except.ok (List.replicate n 0) := by
  unfold bulkReadSt okOracle
  simp

/-- Against the fully compliant device a host-to-device data phase yields
the empty result. -/
lemma dataPhase_okOracle_out (c : PicobootCmd) (buf : List Nat) (s : ConnState)
    (hdir : Nat.testBit c.cmd_id 7 = false) :
    (dataPhase okOracle c buf s).2 = Except.ok [] := by
  unfold dataPhase
  by_cases hl : c.get_transfer_len ≠ 0
  · rw [if_pos hl, if_neg (by simp [hdir])]
    rw [bulkWriteSt_okOracle]
  · rw [if_neg hl]

/-- Against the fully compliant device the ack phase passes the result
through. -/
lemma ackPhase_okOracle (dIn : Bool) (s : ConnState) (res : List Nat) :
    (ackPhase okOracle dIn s res).2 = Except.ok res := by
  cases dIn
  · unfold ackPhase
    rw [if_neg (by simp)]
    rw [bulkReadSt_okOracle]
  · unfold ackPhase
    rw [if_pos rfl]
    rw [bulkWriteSt_okOracle]

/-- Against the fully compliant device every host-to-device command
transaction succeeds with the empty result. -/
lemma cmdRun_okOracle_out (s : ConnState) (c : PicobootCmd) (buf : List Nat)
    (hdir : Nat.testBit c.cmd_id 7 = false) :
    (cmdRun okOracle s c buf).2 = Except.ok [] := by
  have hdir' : Nat.testBit (c.set_token s.cmd_token).cmd_id 7 = false := hdir
  unfold cmdRun cmdPhases
  rw [bulkWriteSt_okOracle]
  rw [dataPhase_okOracle_out _ buf _ hdir']
  simp only [ackPhase_okOracle]

/-- Claim C10: the frame built by `flash_write(addr, buf)` carries
`transfer_len = buf.len() as u32`, i.e. the length reduced modulo `2^32`;
for a buffer of length at least `2^32` this silently disagrees with the
actual number of payload bytes handed to the data phase, and no error is
raised for such buffers (with a compliant device the call succeeds). -/
theorem flash_write_transfer_len_mod (addr : Nat) (buf : List Nat) (s : ConnState) :
    (PicobootCmd.flash_write addr (buf.length % 4294967296)).get_transfer_len =
      buf.length % 4294967296 ∧
    (4294967296 ≤ buf.length →
      (PicobootCmd.flash_write addr (buf.length % 4294967296)).get_transfer_len ≠
        buf.length) ∧
    (usbFlashWrite okOracle s addr buf).2 = Except.ok [] := by
  refine ⟨?_, ?_, ?_⟩
  · show buf.length % 4294967296 % 4294967296 = buf.length % 4294967296
    omega
  · intro hbig
    show buf.length % 4294967296 % 4294967296 ≠ buf.length
    omega
  · exact cmdRun_okOracle_out s
      (PicobootCmd.flash_write addr (buf.length % 4294967296)) buf
      (by decide : Nat.testBit 5 7 = false)

/-- Witness for C10: a buffer of `2^32 + 5` bytes is stamped with
`transfer_len = 5`, which disagrees with the buffer's true length. -/
theorem flash_write_transfer_len_mod_witness :
    (PicobootCmd.flash_write PICO_FLASH_START
        ((List.replicate 4294967301 0).length % 4294967296)).get_transfer_len ≠
      (List.replicate 4294967301 0).length :=
  (flash_write_transfer_len_mod PICO_FLASH_START (List.replicate 4294967301 0) s0).2.1
    (by rw [List.length_replicate]; norm_num)
